import Mathlib

/-!
Verification of the content ingestion and node-materialization workflow of
`gatsby-source-ghost` (`src/gatsby-node.js`), against its specification.

The asynchronous JavaScript code is shallowly embedded as pure functions over
an environment that supplies the outcome and completion time of every external
asynchronous operation (the five Content API browse calls, the
`createRemoteFileNode` download, the `createNodeField` host actions).  Time is
a natural number; a derived promise settles at a time computed from the times
of the operations it awaits, following the semantics of `Promise.all` and of
`async`/`await` chaining.  Node creations are recorded as a trace of
(time, node) pairs.
-/

deriving instance DecidableEq for Except

/-- Errors surfaced by asynchronous operations: either an error value produced
by an external call (the CMS API, the file cache, or a host action), or the
JavaScript `TypeError` raised when a property of `undefined` is read. -/
inductive Err where
  | external (code : Nat)
  | typeError
deriving Repr, DecidableEq

/-- A post or page record as returned by the Ghost Content API, restricted to
the fields `gatsby-node.js` reads: the stable `id` and the optional
`feature_image` URL. -/
structure PostRecord where
  id : Nat
  feature_image : Option String
deriving Repr, DecidableEq

/-- A tag or author record: its `id` and the included `count.posts` value. -/
structure TagRecord where
  id : Nat
  count_posts : Nat
deriving Repr, DecidableEq

/-- The singleton settings record.  `id` is an `Option` because the Content
API returns the settings object without an id. -/
structure SettingsRecord where
  id : Option Nat
deriving Repr, DecidableEq

/-- Modelled from the spec: the Record-to-Node Mapper (`ghost-nodes.js`, which
is not under `src/`) produces a Host Node descriptor carrying the record's
identifier, a type tag, and — for posts and pages — the image link
(`localFile___NODE`) only when an Image Node was produced.  File nodes are the
nodes created by `createRemoteFileNode` inside the host's file cache. -/
inductive HostNode where
  | post (id : Nat) (localFile : Option Nat)
  | page (id : Nat) (localFile : Option Nat)
  | tag (id : Nat) (postCount : Nat)
  | author (id : Nat) (postCount : Nat)
  | settings (id : Option Nat)
  | file (id : Nat)
deriving Repr, DecidableEq

/-- `true` exactly on the nodes produced during per-record post/page
processing: post nodes, page nodes, and the image file nodes. -/
def HostNode.isPerRecordNode : HostNode → Bool
  | .post _ _ => true
  | .page _ _ => true
  | .file _ => true
  | _ => false

/-- Outcome and timing of the external calls made while side-loading one
feature image: the `createRemoteFileNode` download (returning the id the host
assigns to the file node) and the two `createNodeField` host actions. -/
structure ImageEnv where
  download : Except Err Nat
  downloadTime : Nat
  fieldOriginal : Except Err Unit
  fieldOriginalTime : Nat
  fieldRef : Except Err Unit
  fieldRefTime : Nat

/-- The file node as observable after `downloadImageAndCreateFileNode`
returns: its id and the two provenance fields attached by the successful
`createNodeField` calls. -/
structure FileNodeOut where
  id : Nat
  originalPath : Option String
  refId : Option Nat
deriving Repr, DecidableEq

/-- Result of one invocation of the image side-loader: the returned file node
(`none` models JavaScript `undefined`), whether `console.warn` ran, the time
at which the returned promise settles, and the node creations performed. -/
structure ImageResult where
  node : Option FileNodeOut
  warned : Bool
  finish : Nat
  created : List (Nat × HostNode)
deriving Repr, DecidableEq

/-- Embedding of `downloadImageAndCreateFileNode` (src/gatsby-node.js lines
16-46): try `createRemoteFileNode`, then attach `originalPath`, then attach
`refId`; any throw lands in the catch, which logs a warning; the function then
returns whatever `fileNode` holds (`undefined` if the download itself threw,
the — possibly partially annotated — file node otherwise). -/
def downloadImageAndCreateFileNode (feature_image : String) (id : Nat)
    (start : Nat) (env : ImageEnv) : ImageResult :=
  match env.download with
  | .error _ =>
    { node := none, warned := true, finish := start + env.downloadTime,
      created := [] }
  | .ok fid =>
    let t1 := start + env.downloadTime
    match env.fieldOriginal with
    | .error _ =>
      { node := some { id := fid, originalPath := none, refId := none },
        warned := true, finish := t1 + env.fieldOriginalTime,
        created := [(t1, HostNode.file fid)] }
    | .ok _ =>
      let t2 := t1 + env.fieldOriginalTime
      match env.fieldRef with
      | .error _ =>
        { node := some { id := fid, originalPath := some feature_image, refId := none },
          warned := true, finish := t2 + env.fieldRefTime,
          created := [(t1, HostNode.file fid)] }
      | .ok _ =>
        { node := some { id := fid, originalPath := some feature_image, refId := some id },
          warned := false, finish := t2 + env.fieldRefTime,
          created := [(t1, HostNode.file fid)] }

/-- Result of one per-post (or per-page) processing task inside the inner
fan-out of `createLiveGhostNodes`. -/
structure TaskResult where
  result : Except Err Unit
  finish : Nat
  created : List (Nat × HostNode)
deriving Repr, DecidableEq

/-- The Host Node the Mapper produces for a post or page record. -/
def recordNode (isPage : Bool) (id : Nat) (localFile : Option Nat) : HostNode :=
  if isPage then HostNode.page id localFile else HostNode.post id localFile

/-- Embedding of the per-record arrow function in `posts.map` / `pages.map`
(src/gatsby-node.js lines 92-109): when `feature_image` is set, await the
side-loader, then read `post.image.id` — which throws a `TypeError` when the
side-loader returned `undefined` — and finally `createNode(PostNode(post))`
(resp. `PageNode`). -/
def processRecord (isPage : Bool) (p : PostRecord) (start : Nat)
    (env : ImageEnv) : TaskResult :=
  match p.feature_image with
  | none =>
    { result := .ok (), finish := start,
      created := [(start, recordNode isPage p.id none)] }
  | some fi =>
    match (downloadImageAndCreateFileNode fi p.id start env).node with
    | none =>
      { result := .error Err.typeError,
        finish := (downloadImageAndCreateFileNode fi p.id start env).finish,
        created := (downloadImageAndCreateFileNode fi p.id start env).created }
    | some f =>
      { result := .ok (),
        finish := (downloadImageAndCreateFileNode fi p.id start env).finish,
        created := (downloadImageAndCreateFileNode fi p.id start env).created
          ++ [((downloadImageAndCreateFileNode fi p.id start env).finish,
               recordNode isPage p.id (some f.id))] }

/-- C6: a post/page without `feature_image` yields a node with no image link;
with `feature_image`, on side-load success the node's `localFile___NODE`
equals the created file node's id, and the file node carries
`originalPath = feature_image` and `refId = ` the record's id. -/
theorem per_record_image_link (isPage : Bool) (p : PostRecord) (start : Nat)
    (env : ImageEnv) :
    (p.feature_image = none →
      (processRecord isPage p start env).created
        = [(start, recordNode isPage p.id none)]) ∧
    (∀ fi fid, p.feature_image = some fi → env.download = Except.ok fid →
      env.fieldOriginal = Except.ok () → env.fieldRef = Except.ok () →
      (downloadImageAndCreateFileNode fi p.id start env).node
        = some { id := fid, originalPath := some fi, refId := some p.id } ∧
      (processRecord isPage p start env).created
        = [(start + env.downloadTime, HostNode.file fid),
           ((downloadImageAndCreateFileNode fi p.id start env).finish,
            recordNode isPage p.id (some fid))]) := by
  constructor
  · intro h
    simp [processRecord, h]
  · intro fi fid hfi hdl h1 h2
    simp [processRecord, downloadImageAndCreateFileNode, hfi, hdl, h1, h2]

/-- A successful image environment: download yields file node id `fid` after
`dt` time units, both annotation steps succeed instantly. -/
def imageOk (fid : Nat) (dt : Nat) : ImageEnv :=
  { download := .ok fid, downloadTime := dt,
    fieldOriginal := .ok (), fieldOriginalTime := 0,
    fieldRef := .ok (), fieldRefTime := 0 }

/-- Witness for `per_record_image_link` at concrete inputs. -/
theorem per_record_image_link_witness :
    ((processRecord false ⟨1, none⟩ 0 (imageOk 9 4)).created
       = [(0, recordNode false 1 none)]) ∧
    ((downloadImageAndCreateFileNode "u" 2 0 (imageOk 9 4)).node
       = some { id := 9, originalPath := some "u", refId := some 2 } ∧
     (processRecord true ⟨2, some "u"⟩ 0 (imageOk 9 4)).created
       = [(0 + (imageOk 9 4).downloadTime, HostNode.file 9),
          ((downloadImageAndCreateFileNode "u" 2 0 (imageOk 9 4)).finish,
           recordNode true 2 (some 9))]) :=
  ⟨(per_record_image_link false ⟨1, none⟩ 0 (imageOk 9 4)).1 rfl,
   (per_record_image_link true ⟨2, some "u"⟩ 0 (imageOk 9 4)).2 "u" 9 rfl rfl rfl rfl⟩

/-- An image environment where the download succeeds but the first
`createNodeField` (the `originalPath` annotation) fails. -/
def ienvAnnFail : ImageEnv :=
  { download := .ok 5, downloadTime := 1,
    fieldOriginal := .error (.external 2), fieldOriginalTime := 1,
    fieldRef := .ok (), fieldRefTime := 0 }

/-- C3 counterexample: when the download succeeds and an annotation step
fails, the side-loader does NOT return an empty/absent result — it returns
the file node, with no annotation attached — refuting the claim that any
failure yields an absent result and never a partially annotated node. -/
theorem image_loader_annotation_failure_counterexample :
    ienvAnnFail.fieldOriginal = Except.error (Err.external 2) ∧
    (downloadImageAndCreateFileNode "u" 7 0 ienvAnnFail).node
      = some { id := 5, originalPath := none, refId := none } ∧
    (downloadImageAndCreateFileNode "u" 7 0 ienvAnnFail).warned = true :=
  ⟨rfl, rfl, rfl⟩

/-- C3 (amended): the side-loader never propagates an error; when the
download step fails it warns and returns an absent result; when the download
succeeds it returns the file node even if an annotation step failed — fully
annotated exactly when no warning was logged. -/
theorem image_loader_failure_behavior (fi : String) (id start : Nat)
    (env : ImageEnv) :
    ((∃ e, env.download = Except.error e) →
      (downloadImageAndCreateFileNode fi id start env).node = none ∧
      (downloadImageAndCreateFileNode fi id start env).warned = true) ∧
    (∀ fid, env.download = Except.ok fid →
      ∃ f, (downloadImageAndCreateFileNode fi id start env).node = some f ∧
        f.id = fid ∧
        ((downloadImageAndCreateFileNode fi id start env).warned = false ↔
          (env.fieldOriginal = Except.ok () ∧ env.fieldRef = Except.ok ())) ∧
        ((downloadImageAndCreateFileNode fi id start env).warned = false →
          f = { id := fid, originalPath := some fi, refId := some id })) := by
  constructor
  · rintro ⟨e, he⟩
    simp [downloadImageAndCreateFileNode, he]
  · intro fid hd
    rcases h1 : env.fieldOriginal with e1 | u1
    · exact ⟨{ id := fid, originalPath := none, refId := none },
        by simp [downloadImageAndCreateFileNode, hd, h1]⟩
    · rcases h2 : env.fieldRef with e2 | u2
      · exact ⟨{ id := fid, originalPath := some fi, refId := none },
          by simp [downloadImageAndCreateFileNode, hd, h1, h2]⟩
      · exact ⟨{ id := fid, originalPath := some fi, refId := some id },
          by simp [downloadImageAndCreateFileNode, hd, h1, h2]⟩

/-- An image environment whose download step fails. -/
def ienvDlFail : ImageEnv :=
  { download := .error (.external 5), downloadTime := 2,
    fieldOriginal := .ok (), fieldOriginalTime := 0,
    fieldRef := .ok (), fieldRefTime := 0 }

/-- Witness for `image_loader_failure_behavior` at concrete inputs. -/
theorem image_loader_failure_behavior_witness :
    ((downloadImageAndCreateFileNode "u" 3 0 ienvDlFail).node = none ∧
     (downloadImageAndCreateFileNode "u" 3 0 ienvDlFail).warned = true) ∧
    (∃ f, (downloadImageAndCreateFileNode "v" 4 0 (imageOk 9 4)).node = some f ∧
      f.id = 9 ∧
      ((downloadImageAndCreateFileNode "v" 4 0 (imageOk 9 4)).warned = false ↔
        ((imageOk 9 4).fieldOriginal = Except.ok ()
          ∧ (imageOk 9 4).fieldRef = Except.ok ())) ∧
      ((downloadImageAndCreateFileNode "v" 4 0 (imageOk 9 4)).warned = false →
        f = { id := 9, originalPath := some "v", refId := some 4 })) :=
  ⟨(image_loader_failure_behavior "u" 3 0 ienvDlFail).1 ⟨Err.external 5, rfl⟩,
   (image_loader_failure_behavior "v" 4 0 (imageOk 9 4)).2 9 rfl⟩

/-- Forget the value of an `Except`, keeping only settled-fulfilled versus
settled-rejected (the view `Promise.all` takes of each input promise). -/
def exceptUnit {α : Type} : Except Err α → Except Err Unit
  | .ok _ => .ok ()
  | .error e => .error e

/-- The earliest rejection among a list of (settle time, outcome) pairs:
`Promise.all` rejects with the first rejection to occur.  Ties are resolved in
favour of the earlier list position. -/
def firstRejection : List (Nat × Except Err Unit) → Option (Nat × Err)
  | [] => none
  | (t, Except.error e) :: rest =>
    match firstRejection rest with
    | some (t2, e2) => if t2 < t then some (t2, e2) else some (t, e)
    | none => some (t, e)
  | (_, Except.ok _) :: rest => firstRejection rest

/-- The latest settle time in the list, or `d` (the time `Promise.all` was
entered) when the list is empty. -/
def maxFinish (d : Nat) : List (Nat × Except Err Unit) → Nat
  | [] => d
  | (t, _) :: rest => max t (maxFinish d rest)

/-- Settle time and outcome of `Promise.all` over the given (time, outcome)
pairs, entered at time `start`: it rejects at the earliest rejection with that
error, otherwise fulfills once every input has fulfilled. -/
def promiseAll (start : Nat) (ts : List (Nat × Except Err Unit)) :
    Nat × Except Err Unit :=
  match firstRejection ts with
  | some (t, e) => (t, Except.error e)
  | none => (maxFinish start ts, Except.ok ())

/-- The five Content API resources browsed by `createLiveGhostNodes`. -/
inductive Resource where
  | posts | pages | tags | authors | settings
deriving Repr, DecidableEq

/-- Environment of one ingestion run: outcome and settle time of each of the
five browse calls, and the image side-load environment for each post id and
each page id. -/
structure Env where
  posts : Except Err (List PostRecord)
  postsTime : Nat
  pages : Except Err (List PostRecord)
  pagesTime : Nat
  tags : Except Err (List TagRecord)
  tagsTime : Nat
  authors : Except Err (List TagRecord)
  authorsTime : Nat
  settings : Except Err SettingsRecord
  settingsTime : Nat
  postImage : Nat → ImageEnv
  pageImage : Nat → ImageEnv

/-- Modelled from the spec: `TagNode` (in `ghost-nodes.js`, not under `src/`)
maps a tag record to a node keyed by the record's id; `gatsby-node.js` first
sets `tag.postCount = tag.count.posts`, which the node carries. -/
def TagNodeOf (t : TagRecord) : HostNode := HostNode.tag t.id t.count_posts

/-- Modelled from the spec: `AuthorNode` maps an author record to a node keyed
by the record's id, carrying `postCount = count.posts`. -/
def AuthorNodeOf (a : TagRecord) : HostNode := HostNode.author a.id a.count_posts

/-- Modelled from the spec: `SettingsNode` maps the settings record to a node
whose identifier equals the record's identifier. -/
def SettingsNodeOf (s : SettingsRecord) : HostNode := HostNode.settings s.id

/-- Node creations performed by the `fetchTags` continuation: as soon as the
tags browse resolves, one `TagNode` per record is created (nothing on
rejection). -/
def tagNodes (env : Env) : List (Nat × HostNode) :=
  match env.tags with
  | .error _ => []
  | .ok ts => ts.map (fun t => (env.tagsTime, TagNodeOf t))

/-- Node creations performed by the `fetchAuthors` continuation. -/
def authorNodes (env : Env) : List (Nat × HostNode) :=
  match env.authors with
  | .error _ => []
  | .ok as => as.map (fun a => (env.authorsTime, AuthorNodeOf a))

/-- Node creations performed by the `fetchSettings` continuation
(src/gatsby-node.js lines 83-87): the record's `id` is assigned `1` and the
settings node is created. -/
def settingsNodes (env : Env) : List (Nat × HostNode) :=
  match env.settings with
  | .error _ => []
  | .ok s => [(env.settingsTime, SettingsNodeOf { s with id := some 1 })]

/-- The (settle time, outcome) pairs of the five fetch promises, in the order
they are passed to `Promise.all` (src/gatsby-node.js line 89). -/
def browseOutcomes (env : Env) : List (Nat × Except Err Unit) :=
  [(env.postsTime, exceptUnit env.posts),
   (env.pagesTime, exceptUnit env.pages),
   (env.tagsTime, exceptUnit env.tags),
   (env.authorsTime, exceptUnit env.authors),
   (env.settingsTime, exceptUnit env.settings)]

/-- Concatenated creation traces of a list of per-record tasks. -/
def tasksCreated : List TaskResult → List (Nat × HostNode)
  | [] => []
  | r :: rest => r.created ++ tasksCreated rest

/-- Observable outcome of one ingestion run: how and when the promise
returned by `createLiveGhostNodes` settles, every node creation performed
during the run (with its time), and the browse calls issued. -/
structure RunResult where
  result : Except Err Unit
  settle : Nat
  created : List (Nat × HostNode)
  apiCalls : List Resource
deriving Repr

/-- The node creations performed by the three fetch continuations that run
independently of the posts/pages fan-out (`fetchTags`, `fetchAuthors`,
`fetchSettings`): each runs as soon as its own browse resolves, whatever the
other four fetches do. -/
def baseNodes (env : Env) : List (Nat × HostNode) :=
  tagNodes env ++ authorNodes env ++ settingsNodes env

/-- The five browse calls issued by `createLiveGhostNodes`, each exactly
once. -/
def allResources : List Resource :=
  [Resource.posts, Resource.pages, Resource.tags,
   Resource.authors, Resource.settings]

/-- The per-post tasks spawned by `posts.map(...)`, all started at `t0`, the
time the outer `Promise.all` fulfilled. -/
def postTasksOf (env : Env) (t0 : Nat) (l : List PostRecord) : List TaskResult :=
  l.map (fun p => processRecord false p t0 (env.postImage p.id))

/-- The per-page tasks spawned by `pages.map(...)`. -/
def pageTasksOf (env : Env) (t0 : Nat) (l : List PostRecord) : List TaskResult :=
  l.map (fun p => processRecord true p t0 (env.pageImage p.id))

/-- Embedding of `createLiveGhostNodes` (src/gatsby-node.js lines 12-112).
The five fetches run concurrently; tag/author/settings nodes are created by
each fetch's own continuation as soon as that fetch resolves, independent of
the other fetches.  `Promise.all` over the five fetches rejects on the first
browse rejection; on fulfillment the per-post and per-page tasks all start,
but — because the `pages.map(...)` array is passed to `Promise.all` as a
second, ignored argument — only the post tasks are awaited: the run settles
with the inner `Promise.all` over the post tasks alone, while the page tasks
keep running unawaited (their node creations still appear in the trace). -/
def createLiveGhostNodes (env : Env) : RunResult :=
  match promiseAll 0 (browseOutcomes env), env.posts, env.pages with
  | (t, .error e), _, _ =>
    { result := .error e, settle := t, created := baseNodes env,
      apiCalls := allResources }
  | (t0, .ok _), .ok postsL, .ok pagesL =>
    { result := (promiseAll t0
        ((postTasksOf env t0 postsL).map (fun r => (r.finish, r.result)))).2,
      settle := (promiseAll t0
        ((postTasksOf env t0 postsL).map (fun r => (r.finish, r.result)))).1,
      created := baseNodes env ++ tasksCreated (postTasksOf env t0 postsL)
                 ++ tasksCreated (pageTasksOf env t0 pagesL),
      apiCalls := allResources }
  | (t0, .ok _), _, _ =>
    { result := .ok (), settle := t0, created := baseNodes env,
      apiCalls := allResources }

/-- A rejection reported by `firstRejection` is an actual member of the
list. -/
theorem firstRejection_mem :
    ∀ {l : List (Nat × Except Err Unit)} {t : Nat} {e : Err},
      firstRejection l = some (t, e) → (t, Except.error e) ∈ l := by
  intro l
  induction l with
  | nil => intro t e h; simp [firstRejection] at h
  | cons hd rest ih =>
    intro t e h
    obtain ⟨th, oh⟩ := hd
    match oh with
    | Except.ok u =>
      rw [firstRejection] at h
      exact List.mem_cons_of_mem _ (ih h)
    | Except.error eh =>
      rw [firstRejection] at h
      cases hr : firstRejection rest with
      | none =>
        rw [hr] at h
        simp at h
        simp [h.1, h.2]
      | some te =>
        obtain ⟨t2, e2⟩ := te
        rw [hr] at h
        simp at h
        by_cases hlt : t2 < th
        · rw [if_pos hlt] at h
          simp at h
          exact List.mem_cons_of_mem _ (ih (by rw [hr, h.1, h.2]))
        · rw [if_neg hlt] at h
          simp at h
          simp [h.1, h.2]

/-- If some input promise rejected, `firstRejection` reports a rejection. -/
theorem firstRejection_isSome :
    ∀ {l : List (Nat × Except Err Unit)} {t : Nat} {e : Err},
      (t, Except.error e) ∈ l → ∃ p, firstRejection l = some p := by
  intro l
  induction l with
  | nil => intro t e h; simp at h
  | cons hd rest ih =>
    intro t e h
    obtain ⟨th, oh⟩ := hd
    match oh with
    | Except.ok u =>
      rcases List.mem_cons.mp h with h1 | h2
      · simp at h1
      · rw [firstRejection]
        exact ih h2
    | Except.error eh =>
      rw [firstRejection]
      cases hr : firstRejection rest with
      | none => exact ⟨(th, eh), rfl⟩
      | some te =>
        obtain ⟨t2, e2⟩ := te
        by_cases hlt : t2 < th
        · exact ⟨(t2, e2), by simp [hlt]⟩
        · exact ⟨(th, eh), by simp [hlt]⟩

/-- Every node created by a tags-fetch continuation is a tag node. -/
theorem tagNodes_shape {env : Env} {t : Nat} {n : HostNode}
    (h : (t, n) ∈ tagNodes env) : ∃ i c, n = HostNode.tag i c := by
  unfold tagNodes at h
  split at h
  · simp at h
  · obtain ⟨tg, -, heq⟩ := List.mem_map.mp h
    cases heq
    exact ⟨tg.id, tg.count_posts, rfl⟩

/-- Every node created by an authors-fetch continuation is an author node. -/
theorem authorNodes_shape {env : Env} {t : Nat} {n : HostNode}
    (h : (t, n) ∈ authorNodes env) : ∃ i c, n = HostNode.author i c := by
  unfold authorNodes at h
  split at h
  · simp at h
  · obtain ⟨a, -, heq⟩ := List.mem_map.mp h
    cases heq
    exact ⟨a.id, a.count_posts, rfl⟩

/-- Every node created by the settings-fetch continuation is the settings
node with identifier 1. -/
theorem settingsNodes_shape {env : Env} {t : Nat} {n : HostNode}
    (h : (t, n) ∈ settingsNodes env) : n = HostNode.settings (some 1) := by
  unfold settingsNodes at h
  split at h
  · simp at h
  · simp [SettingsNodeOf] at h
    exact h.2

/-- Every node created inside the image side-loader is a file node. -/
theorem dl_created_shape {fi : String} {id start : Nat} {env : ImageEnv}
    {t : Nat} {n : HostNode}
    (h : (t, n) ∈ (downloadImageAndCreateFileNode fi id start env).created) :
    ∃ i, n = HostNode.file i := by
  rcases hd : env.download with e | fid
  · simp [downloadImageAndCreateFileNode, hd] at h
  · rcases h1 : env.fieldOriginal with e1 | u1 <;>
      rcases h2 : env.fieldRef with e2 | u2 <;>
      simp [downloadImageAndCreateFileNode, hd, h1, h2] at h <;>
      exact ⟨fid, h.2⟩

/-- Every node created by a per-post/per-page task is a post, page, or file
node. -/
theorem processRecord_created_shape {isPage : Bool} {p : PostRecord}
    {start : Nat} {env : ImageEnv} {t : Nat} {n : HostNode}
    (h : (t, n) ∈ (processRecord isPage p start env).created) :
    n.isPerRecordNode = true := by
  unfold processRecord at h
  split at h
  · simp at h
    rw [h.2]
    cases isPage <;> simp [recordNode, HostNode.isPerRecordNode]
  · split at h
    · obtain ⟨i, rfl⟩ := dl_created_shape h
      rfl
    · rcases List.mem_append.mp h with h1 | h2
      · obtain ⟨i, rfl⟩ := dl_created_shape h1
        rfl
      · simp at h2
        rw [h2.2]
        cases isPage <;> simp [recordNode, HostNode.isPerRecordNode]

/-- Every node created across a list of per-record tasks is a post, page, or
file node. -/
theorem tasksCreated_map_shape {l : List PostRecord} {isPage : Bool}
    {t0 : Nat} {f : Nat → ImageEnv} {t : Nat} {n : HostNode}
    (h : (t, n) ∈ tasksCreated
      (l.map (fun p => processRecord isPage p t0 (f p.id)))) :
    n.isPerRecordNode = true := by
  induction l with
  | nil => simp [tasksCreated] at h
  | cons hd rest ih =>
    simp only [List.map_cons, tasksCreated] at h
    rcases List.mem_append.mp h with h1 | h2
    · exact processRecord_created_shape h1
    · exact ih h2

/-- No node created by the tag/author/settings continuations is a post, page,
or file node. -/
theorem baseNodes_shape {env : Env} {t : Nat} {n : HostNode}
    (h : (t, n) ∈ baseNodes env) : n.isPerRecordNode = false := by
  unfold baseNodes at h
  rcases List.mem_append.mp h with h1 | h2
  · rcases List.mem_append.mp h1 with ht | ha
    · obtain ⟨i, c, rfl⟩ := tagNodes_shape ht
      rfl
    · obtain ⟨i, c, rfl⟩ := authorNodes_shape ha
      rfl
  · rw [settingsNodes_shape h2]
    rfl

/-- A settings node occurring among the base creations has identifier 1. -/
theorem baseNodes_settings {env : Env} {t : Nat} {oid : Option Nat}
    (h : (t, HostNode.settings oid) ∈ baseNodes env) : oid = some 1 := by
  unfold baseNodes at h
  rcases List.mem_append.mp h with h1 | h2
  · rcases List.mem_append.mp h1 with ht | ha
    · obtain ⟨i, c, hc⟩ := tagNodes_shape ht
      exact absurd hc (by simp)
    · obtain ⟨i, c, hc⟩ := authorNodes_shape ha
      exact absurd hc (by simp)
  · have hs := settingsNodes_shape h2
    injection hs

/-- C5: whenever at least one of the five browse calls rejects, the ingestion
promise rejects with the error of a rejecting browse call, unchanged; each
resource is browsed exactly once (no retry). -/
theorem ingestion_rejects_on_browse_failure (env : Env) :
    ((∃ t e, (t, Except.error e) ∈ browseOutcomes env) →
      ∃ t e, (t, Except.error e) ∈ browseOutcomes env ∧
        (createLiveGhostNodes env).result = Except.error e) ∧
    (createLiveGhostNodes env).apiCalls = allResources := by
  constructor
  · rintro ⟨t, e, hm⟩
    obtain ⟨⟨t2, e2⟩, hfr⟩ := firstRejection_isSome hm
    refine ⟨t2, e2, firstRejection_mem hfr, ?_⟩
    have hp : promiseAll 0 (browseOutcomes env) = (t2, Except.error e2) := by
      simp [promiseAll, hfr]
    unfold createLiveGhostNodes
    rw [hp]
  · unfold createLiveGhostNodes
    split <;> rfl

/-- A run in which only the posts browse rejects. -/
def envC5 : Env :=
  { posts := .error (.external 7), postsTime := 2,
    pages := .ok [], pagesTime := 0,
    tags := .ok [], tagsTime := 0,
    authors := .ok [], authorsTime := 0,
    settings := .ok ⟨none⟩, settingsTime := 0,
    postImage := fun _ => imageOk 0 0,
    pageImage := fun _ => imageOk 0 0 }

/-- Witness for `ingestion_rejects_on_browse_failure` at a run whose posts
browse rejects with error code 7. -/
theorem ingestion_rejects_on_browse_failure_witness :
    (∃ t e, (t, Except.error e) ∈ browseOutcomes envC5 ∧
      (createLiveGhostNodes envC5).result = Except.error e) ∧
    (createLiveGhostNodes envC5).apiCalls = allResources :=
  ⟨(ingestion_rejects_on_browse_failure envC5).1 ⟨2, Err.external 7, by decide⟩,
   (ingestion_rejects_on_browse_failure envC5).2⟩

/-- A run in which the posts browse (and the settings browse) reject while
the tags browse resolves with one tag record. -/
def envC4 : Env :=
  { posts := .error (.external 3), postsTime := 5,
    pages := .ok [], pagesTime := 0,
    tags := .ok [⟨1, 2⟩], tagsTime := 3,
    authors := .ok [], authorsTime := 0,
    settings := .error (.external 9), settingsTime := 0,
    postImage := fun _ => imageOk 0 0,
    pageImage := fun _ => imageOk 0 0 }

/-- C4 counterexample: in `envC4` a browse call rejects, yet a tag node WAS
created as a side effect of the run — the node store is not left unchanged,
refuting the claim that no nodes of any type are created. -/
theorem browse_failure_partial_commit_counterexample :
    envC4.posts = Except.error (Err.external 3) ∧
    (3, HostNode.tag 1 2) ∈ (createLiveGhostNodes envC4).created := by
  exact ⟨rfl, by decide⟩

/-- C4 (amended): whenever a browse call rejects the ingestion promise
rejects, and no post, page, or image file node is created — but tag, author
and settings nodes may already have been created by the continuations of
browse calls that resolved. -/
theorem ingestion_rejects_no_record_nodes (env : Env)
    (h : ∃ t e, (t, Except.error e) ∈ browseOutcomes env) :
    (∃ e, (createLiveGhostNodes env).result = Except.error e) ∧
    ∀ t n, (t, n) ∈ (createLiveGhostNodes env).created →
      n.isPerRecordNode = false := by
  obtain ⟨t, e, hm⟩ := h
  obtain ⟨⟨t2, e2⟩, hfr⟩ := firstRejection_isSome hm
  have hp : promiseAll 0 (browseOutcomes env) = (t2, Except.error e2) := by
    simp [promiseAll, hfr]
  constructor
  · refine ⟨e2, ?_⟩
    unfold createLiveGhostNodes
    rw [hp]
  · intro t3 n hn
    unfold createLiveGhostNodes at hn
    rw [hp] at hn
    exact baseNodes_shape hn

/-- Witness for `ingestion_rejects_no_record_nodes` at `envC4`. -/
theorem ingestion_rejects_no_record_nodes_witness :
    (∃ e, (createLiveGhostNodes envC4).result = Except.error e) ∧
    HostNode.isPerRecordNode (HostNode.tag 1 2) = false :=
  have h := ingestion_rejects_no_record_nodes envC4 ⟨5, Err.external 3, by decide⟩
  ⟨h.1, h.2 3 (HostNode.tag 1 2) (by decide)⟩

/-- C7: whenever the settings browse resolves, the settings node is created
with the fixed synthetic identifier 1. -/
theorem settings_node_created_with_id_one (env : Env) (s : SettingsRecord)
    (h : env.settings = Except.ok s) :
    (env.settingsTime, HostNode.settings (some 1))
      ∈ (createLiveGhostNodes env).created := by
  have hbase : (env.settingsTime, HostNode.settings (some 1)) ∈ baseNodes env := by
    unfold baseNodes
    apply List.mem_append_right
    simp [settingsNodes, h, SettingsNodeOf]
  unfold createLiveGhostNodes
  split
  · exact hbase
  · exact List.mem_append_left _ (List.mem_append_left _ hbase)
  · exact hbase

/-- A run with empty content and a settings record lacking an id. -/
def envC7 : Env :=
  { posts := .ok [], postsTime := 0,
    pages := .ok [], pagesTime := 0,
    tags := .ok [], tagsTime := 0,
    authors := .ok [], authorsTime := 0,
    settings := .ok ⟨none⟩, settingsTime := 4,
    postImage := fun _ => imageOk 0 0,
    pageImage := fun _ => imageOk 0 0 }

/-- Witness for `settings_node_created_with_id_one` at `envC7`. -/
theorem settings_node_created_with_id_one_witness :
    (4, HostNode.settings (some 1)) ∈ (createLiveGhostNodes envC7).created :=
  settings_node_created_with_id_one envC7 ⟨none⟩ rfl

/-- C10: every settings node created during any run carries identifier 1 —
the record's id is unconditionally overwritten before node creation, whatever
id the CMS returned. -/
theorem settings_node_id_overwritten (env : Env) (t : Nat) (oid : Option Nat)
    (h : (t, HostNode.settings oid) ∈ (createLiveGhostNodes env).created) :
    oid = some 1 := by
  unfold createLiveGhostNodes at h
  split at h
  · exact baseNodes_settings h
  · rcases List.mem_append.mp h with h1 | h2
    · rcases List.mem_append.mp h1 with h3 | h4
      · exact baseNodes_settings h3
      · unfold postTasksOf at h4
        have := tasksCreated_map_shape h4
        simp [HostNode.isPerRecordNode] at this
    · unfold pageTasksOf at h2
      have := tasksCreated_map_shape h2
      simp [HostNode.isPerRecordNode] at this
  · exact baseNodes_settings h

/-- A run whose settings record, unusually, already carries id 42. -/
def envC10 : Env :=
  { posts := .ok [], postsTime := 0,
    pages := .ok [], pagesTime := 0,
    tags := .ok [], tagsTime := 0,
    authors := .ok [], authorsTime := 0,
    settings := .ok ⟨some 42⟩, settingsTime := 0,
    postImage := fun _ => imageOk 0 0,
    pageImage := fun _ => imageOk 0 0 }

/-- Witness for `settings_node_id_overwritten`: even when the CMS returns a
settings record with id 42, the created settings node has id 1. -/
theorem settings_node_id_overwritten_witness :
    (0, HostNode.settings (some 1)) ∈ (createLiveGhostNodes envC10).created ∧
    (some 1 : Option Nat) = some 1 :=
  ⟨by decide, settings_node_id_overwritten envC10 0 (some 1) (by decide)⟩

/-- A run with a single post whose feature-image download fails; every browse
call succeeds. -/
def envC1 : Env :=
  { posts := .ok [⟨1, some "img"⟩], postsTime := 0,
    pages := .ok [], pagesTime := 0,
    tags := .ok [], tagsTime := 0,
    authors := .ok [], authorsTime := 0,
    settings := .ok ⟨none⟩, settingsTime := 0,
    postImage := fun _ => ienvDlFail,
    pageImage := fun _ => imageOk 0 0 }

/-- C1: evaluation at the failing input.  When the side-load of a post's
feature image fails, the side-loader returns `undefined` and the caller's
`post.image.id` access raises a `TypeError`: the whole ingestion run rejects
(with the TypeError, not the download error) and the post node is never
created — the only node in the trace is the settings node. -/
theorem image_failure_rejects_run :
    (createLiveGhostNodes envC1).result = Except.error Err.typeError ∧
    (createLiveGhostNodes envC1).created = [(0, HostNode.settings (some 1))] :=
  ⟨rfl, rfl⟩

/-- A run with no posts and a single page whose feature image takes 10 time
units to download; every browse call resolves at time 0. -/
def envC2 : Env :=
  { posts := .ok [], postsTime := 0,
    pages := .ok [⟨1, some "img"⟩], pagesTime := 0,
    tags := .ok [], tagsTime := 0,
    authors := .ok [], authorsTime := 0,
    settings := .ok ⟨none⟩, settingsTime := 0,
    postImage := fun _ => imageOk 0 0,
    pageImage := fun _ => imageOk 7 10 }

/-- C2: evaluation at the failing input.  The ingestion promise fulfills at
time 0 — `Promise.all` receives the page-task array as an ignored second
argument and so awaits only the (empty) post-task list — while the page node
is created only at time 10, after the promise has already fulfilled. -/
theorem run_fulfills_before_page_nodes :
    (createLiveGhostNodes envC2).result = Except.ok () ∧
    (createLiveGhostNodes envC2).settle = 0 ∧
    (10, HostNode.page 1 (some 7)) ∈ (createLiveGhostNodes envC2).created :=
  ⟨rfl, rfl, by decide⟩

/-- Modelled from the spec: a fake placeholder node (from `fakeNodes` in
`ghost-nodes.js`, which is not under `src/`): a synthetic node with a stable
id and the mutable `internal.owner` marker that Gatsby's `createNode` sets. -/
structure FakeNode where
  id : Nat
  owner : Option Nat
deriving Repr, DecidableEq

/-- State relevant to the Schema Placeholder Manager: the module-global
`fakeNodes` array (whose elements Gatsby mutates by setting their owner), the
ids of placeholder nodes currently in the host's node store, and the number of
`onSchemaUpdate` listeners currently registered on the `SET_SCHEMA` event. -/
structure SchemaState where
  fakeNodes : List FakeNode
  store : List Nat
  listeners : Nat
deriving Repr, DecidableEq

/-- The host's `createNode` as it behaves on an already-owned node (modelled
from the code comment at src/gatsby-node.js lines 122-123): if the node still
carries an `internal.owner` from a prior call, it throws; otherwise it stores
the node and stamps the plugin as owner. -/
def hostCreateNode (n : FakeNode) : Except Err FakeNode :=
  match n.owner with
  | some _ => .error (.external 100)
  | none => .ok { n with owner := some 1 }

/-- One iteration of the `fakeNodes.forEach` body (src/gatsby-node.js lines
121-126): `delete node.internal.owner` and then `actions.createNode(node)`. -/
def activateNode (n : FakeNode) : Except Err FakeNode :=
  hostCreateNode { n with owner := none }

/-- The `forEach` over the fake nodes; a throw from `createNode` would abort
it and propagate. -/
def activateAll : List FakeNode → Except Err (List FakeNode)
  | [] => .ok []
  | n :: rest =>
    match activateNode n with
    | .error e => .error e
    | .ok n2 =>
      match activateAll rest with
      | .error e => .error e
      | .ok ns => .ok (n2 :: ns)

/-- Embedding of `createTemporaryFakeNodes` (src/gatsby-node.js lines
119-138): clear each fake node's owner and `createNode` it, then register one
`onSchemaUpdate` listener on the `SET_SCHEMA` event. -/
def createTemporaryFakeNodes (st : SchemaState) : Except Err SchemaState :=
  match activateAll st.fakeNodes with
  | .error e => .error e
  | .ok ns =>
    .ok { fakeNodes := ns, store := st.store ++ ns.map FakeNode.id,
          listeners := st.listeners + 1 }

/-- One `onSchemaUpdate` invocation (src/gatsby-node.js lines 128-134):
`deleteNode` every fake node, then `emitter.off` deregisters this listener. -/
def runHandler (st : SchemaState) : SchemaState :=
  { st with
    store := st.store.filter
      (fun i => decide (i ∉ st.fakeNodes.map FakeNode.id)),
    listeners := st.listeners - 1 }

/-- Run `n` handler invocations in sequence. -/
def iterateHandlers : Nat → SchemaState → SchemaState
  | 0, st => st
  | n + 1, st => iterateHandlers n (runHandler st)

/-- The host firing the `SET_SCHEMA` signal: every currently registered
`onSchemaUpdate` listener runs once (each deregistering itself). -/
def fireSetSchema (st : SchemaState) : SchemaState :=
  iterateHandlers st.listeners st

/-- Clearing the owner and then creating always succeeds, leaving the node
owned. -/
theorem activateNode_ok (n : FakeNode) :
    activateNode n = Except.ok { id := n.id, owner := some 1 } := rfl

/-- `activateAll` never throws: every node's owner marker is cleared before
`createNode` sees it. -/
theorem activateAll_ok (l : List FakeNode) :
    activateAll l
      = Except.ok (l.map (fun n => { id := n.id, owner := some 1 })) := by
  induction l with
  | nil => rfl
  | cons hd rest ih => simp [activateAll, activateNode_ok, ih]

/-- The state `createTemporaryFakeNodes` produces: every fake node freshly
owned, its id in the store, and one more listener registered. -/
def activatedState (st : SchemaState) : SchemaState :=
  { fakeNodes := st.fakeNodes.map (fun n => { id := n.id, owner := some 1 }),
    store := st.store ++ st.fakeNodes.map FakeNode.id,
    listeners := st.listeners + 1 }

/-- Activation always succeeds, yielding `activatedState`. -/
theorem createTemporaryFakeNodes_eq (st : SchemaState) :
    createTemporaryFakeNodes st = Except.ok (activatedState st) := by
  rw [createTemporaryFakeNodes, activateAll_ok]
  simp [activatedState, List.map_map, Function.comp]

/-- C8: activating the placeholder manager twice in sequence never throws;
after the first activation every fake node carries a stale owner marker, and
the second activation still succeeds because it clears each marker before
calling `createNode`. -/
theorem double_activation_never_throws (st : SchemaState) :
    ∃ st1 st2,
      createTemporaryFakeNodes st = Except.ok st1 ∧
      (∀ n ∈ st1.fakeNodes, n.owner = some 1) ∧
      createTemporaryFakeNodes st1 = Except.ok st2 :=
  ⟨activatedState st, activatedState (activatedState st),
   createTemporaryFakeNodes_eq st,
   by
     intro n hn
     simp [activatedState] at hn
     obtain ⟨m, -, hm⟩ := hn
     rw [← hm],
   createTemporaryFakeNodes_eq (activatedState st)⟩

/-- C9: after one activation from a listener-free state, the first
`SET_SCHEMA` firing deletes every placeholder node from the store and
deregisters the listener, and a second firing changes nothing. -/
theorem set_schema_one_shot (st st2 : SchemaState)
    (h0 : st.listeners = 0)
    (h : createTemporaryFakeNodes st = Except.ok st2) :
    (∀ n ∈ st2.fakeNodes, n.id ∉ (fireSetSchema st2).store) ∧
    (fireSetSchema st2).listeners = 0 ∧
    fireSetSchema (fireSetSchema st2) = fireSetSchema st2 := by
  rw [createTemporaryFakeNodes_eq] at h
  have hst : st2 = activatedState st := by
    injection h with h2
    exact h2.symm
  subst hst
  have hl : (activatedState st).listeners = 1 := by simp [activatedState, h0]
  have hfire : fireSetSchema (activatedState st)
      = runHandler (activatedState st) := by
    unfold fireSetSchema
    rw [hl]
    rfl
  have hl2 : (fireSetSchema (activatedState st)).listeners = 0 := by
    rw [hfire]
    simp [runHandler, hl]
  refine ⟨?_, hl2, ?_⟩
  · intro n hn
    rw [hfire]
    unfold runHandler
    simp only [List.mem_filter, decide_eq_true_eq]
    rintro ⟨-, habs⟩
    exact habs (List.mem_map.mpr ⟨n, hn, rfl⟩)
  · have hout : fireSetSchema (fireSetSchema (activatedState st))
        = iterateHandlers (fireSetSchema (activatedState st)).listeners
            (fireSetSchema (activatedState st)) := rfl
    rw [hout, hl2]
    rfl

/-- A concrete pre-activation state: one fake node carrying a stale owner
from an earlier build, empty store, no listeners. -/
def stC9 : SchemaState := { fakeNodes := [⟨5, some 9⟩], store := [], listeners := 0 }

/-- The state after activating `stC9`. -/
def stC9a : SchemaState := { fakeNodes := [⟨5, some 1⟩], store := [5], listeners := 1 }

/-- Witness for `set_schema_one_shot` at the concrete state `stC9`. -/
theorem set_schema_one_shot_witness :
    5 ∉ (fireSetSchema stC9a).store ∧
    (fireSetSchema stC9a).listeners = 0 ∧
    fireSetSchema (fireSetSchema stC9a) = fireSetSchema stC9a :=
  have h := set_schema_one_shot stC9 stC9a rfl rfl
  ⟨h.1 ⟨5, some 1⟩ (by decide), h.2.1, h.2.2⟩
